import Mathlib

set_option maxRecDepth 1000000

/-!
Verification of the kaminari P1 smart-meter reader (src/main.rs).

The embedding models lines as lists of characters and f32 values as
rationals.  The nom combinator chain in parse_float is translated
combinator by combinator; the number grammar is nom's recognize_float
(optional sign, digits with optional fraction, optional exponent).
Division of a nonzero f32 by zero is modelled by a signed infinity
marker and 0/0 by a NaN marker; an unwrap of a missing value is
modelled by a panic marker.
-/

/-- One digit-run split: the longest digit prefix and the rest
(nom digit0/digit1 building block). -/
def takeDigits : List Char → List Char × List Char
  | [] => ([], [])
  | c :: cs =>
    if c.isDigit then (c :: (takeDigits cs).1, (takeDigits cs).2)
    else ([], c :: cs)

/-- Numeric value of a digit run, most significant first. -/
def digitsVal (ds : List Char) : ℕ :=
  ds.foldl (fun n c => 10 * n + (c.toNat - 48)) 0

/-- nom: opt(alt((char(of plus), char(of minus)))); true means negative. -/
def parseSign : List Char → Bool × List Char
  | [] => (false, [])
  | c :: cs =>
    if c = '+' then (false, cs)
    else if c = '-' then (true, cs)
    else (false, c :: cs)

/-- After the integer digits: opt(pair(char(dot), opt(digit1))). -/
def mantFrac (ip : ℕ) (r : List Char) : ℚ × List Char :=
  match r with
  | [] => ((ip : ℚ), [])
  | c :: cs =>
    if c = '.' then
      ((ip : ℚ) + (digitsVal (takeDigits cs).1 : ℚ) / (10 : ℚ) ^ (takeDigits cs).1.length,
        (takeDigits cs).2)
    else ((ip : ℚ), c :: cs)

/-- The mantissa part of nom's recognize_float:
alt((digit1 then optional fraction, char(dot) then digit1)). -/
def mantissa (s : List Char) : Option (ℚ × List Char) :=
  match s with
  | [] => none
  | c :: cs =>
    if c.isDigit then
      some (mantFrac (digitsVal (takeDigits (c :: cs)).1) (takeDigits (c :: cs)).2)
    else if c = '.' then
      if (takeDigits cs).1 = [] then none
      else some ((digitsVal (takeDigits cs).1 : ℚ) / (10 : ℚ) ^ (takeDigits cs).1.length,
        (takeDigits cs).2)
    else none

/-- Exponent part: opt(tuple((e or E, opt sign, cut(digit1)))); the cut
makes a dangling exponent marker fail the whole number. -/
def expPart (s : List Char) : Option (ℤ × List Char) :=
  match s with
  | [] => some (0, [])
  | c :: cs =>
    if c = 'e' ∨ c = 'E' then
      if (takeDigits (parseSign cs).2).1 = [] then none
      else
        some
          ((if (parseSign cs).1 then -(digitsVal (takeDigits (parseSign cs).2).1 : ℤ)
            else (digitsVal (takeDigits (parseSign cs).2).1 : ℤ)),
            (takeDigits (parseSign cs).2).2)
    else some (0, c :: cs)

/-- Sign application for the decoded value. -/
def applySign (neg : Bool) (q : ℚ) : ℚ := if neg then -q else q

/-- nom::number::complete::float on a character list: the recognized
decimal literal decoded to a rational, with the unconsumed rest. -/
def numLit (s : List Char) : Option (ℚ × List Char) :=
  match mantissa (parseSign s).2 with
  | none => none
  | some mr =>
    match expPart mr.2 with
    | none => none
    | some er => some (applySign (parseSign s).1 (mr.1 * (10 : ℚ) ^ er.1), er.2)

/-- A continuation that cannot extend a just-recognized number: its
head is neither a digit, a decimal point, nor an exponent marker. -/
def stopsNum : List Char → Prop
  | [] => True
  | c :: _ => c.isDigit = false ∧ c ≠ '.' ∧ c ≠ 'e' ∧ c ≠ 'E'

/-- nom tag: consume an expected literal tag, returning the rest. -/
def dropTag : List Char → List Char → Option (List Char)
  | [], rest => some rest
  | _ :: _, [] => none
  | t :: ts, c :: cs => if c = t then dropTag ts cs else none

/-- nom take_until of the closing parenthesis: the rest starting at the
first closing parenthesis, or failure when none exists. -/
def takeUntilRParen : List Char → Option (List Char)
  | [] => none
  | c :: cs => if c = ')' then some (c :: cs) else takeUntilRParen cs

/-- opt(tuple((tag(of star), take_until(of rparen)))): consume an
optional unit annotation, consuming nothing when the tuple fails. -/
def optUnit (r : List Char) : List Char :=
  match r with
  | [] => []
  | c :: cs =>
    if c = '*' then
      match takeUntilRParen cs with
      | some rest => rest
      | none => c :: cs
    else c :: cs

/-- parse_float(id) from src/main.rs lines 30-47: preceded(tag(id),
delimited(tag lparen, terminated(float, opt(star, take_until rparen)),
tag rparen)). -/
def parseFloat (i line : List Char) : Option ℚ :=
  match dropTag i line with
  | none => none
  | some r1 =>
    match r1 with
    | [] => none
    | c :: r2 =>
      if c = '(' then
        match numLit r2 with
        | none => none
        | some vr =>
          match optUnit vr.2 with
          | [] => none
          | c2 :: _ => if c2 = ')' then some vr.1 else none
      else none

/-- try_field_f32 (src/main.rs lines 49-53): on parse success overwrite
the field, otherwise leave it unchanged. -/
def tryFieldF32 (line i : List Char) (field : Option ℚ) : Option ℚ :=
  match parseFloat i line with
  | some v => some v
  | none => field

/-- Rust numeric cast from f32 to i32 (res as i32, src/main.rs line 57):
truncation toward zero, saturating at the i32 bounds when the truncated
value falls outside them.  (The cast also maps NaN to 0, but the decimal
number grammar never produces NaN, so that case is not modelled.) -/
def f32AsI32 (q : ℚ) : ℤ :=
  max (-2147483648) (min 2147483647 (if 0 ≤ q then ⌊q⌋ else ⌈q⌉))

/-- Following the spec words for the stored integer, for comparison with
f32AsI32: the decoded float truncated toward zero, unbounded. -/
def specTruncToZero (q : ℚ) : ℤ := if 0 ≤ q then ⌊q⌋ else ⌈q⌉

/-- try_field_i32 (src/main.rs lines 55-59): like try_field_f32 but the
decoded float is cast to an integer. -/
def tryFieldI32 (line i : List Char) (field : Option ℤ) : Option ℤ :=
  match parseFloat i line with
  | some v => some (f32AsI32 v)
  | none => field

/-- The nine recognized register identifiers (src/main.rs lines 80-88). -/
def idDelivered1 : List Char := "1-0:1.8.1".data

def idDelivered2 : List Char := "1-0:1.8.2".data

def idReceived1 : List Char := "1-0:2.8.1".data

def idReceived2 : List Char := "1-0:2.8.2".data

def idCurrentTariff : List Char := "0-0:96.14.0".data

def idActualDelivered : List Char := "1-0:1.7.0".data

def idActualReceived : List Char := "1-0:2.7.0".data

def idMaxPower : List Char := "0-0:17.0.0".data

def idSwitchMode : List Char := "0-0:96.3.10".data

def recognizedIds : List (List Char) :=
  [idDelivered1, idDelivered2, idReceived1, idReceived2, idCurrentTariff,
   idActualDelivered, idActualReceived, idMaxPower, idSwitchMode]

/-- DataFrame (src/main.rs lines 17-28): the in-progress frame with nine
optional registers. -/
structure DataFrame where
  delivered_1 : Option ℚ
  delivered_2 : Option ℚ
  received_1 : Option ℚ
  received_2 : Option ℚ
  current_tariff : Option ℤ
  actual_delivered : Option ℚ
  actual_received : Option ℚ
  max_power : Option ℚ
  switch_mode : Option ℤ
deriving DecidableEq

/-- DataFrame::default(): every field absent. -/
def defaultFrame : DataFrame :=
  ⟨none, none, none, none, none, none, none, none, none⟩

/-- The effect of one non-terminator line on the accumulator: the nine
try_field calls of read_p1 (src/main.rs lines 80-88).  The fields are
independent, so the sequence of in-place mutations equals this
simultaneous record update. -/
def updateFrame (frame : DataFrame) (line : List Char) : DataFrame where
  delivered_1 := tryFieldF32 line idDelivered1 frame.delivered_1
  delivered_2 := tryFieldF32 line idDelivered2 frame.delivered_2
  received_1 := tryFieldF32 line idReceived1 frame.received_1
  received_2 := tryFieldF32 line idReceived2 frame.received_2
  current_tariff := tryFieldI32 line idCurrentTariff frame.current_tariff
  actual_delivered := tryFieldF32 line idActualDelivered frame.actual_delivered
  actual_received := tryFieldF32 line idActualReceived frame.actual_received
  max_power := tryFieldF32 line idMaxPower frame.max_power
  switch_mode := tryFieldI32 line idSwitchMode frame.switch_mode

/-- The frame terminator line. -/
def bang : List Char := ['!']

/-- One step of the filter_map closure in read_p1 (lines 75-92): on the
terminator, emit the accumulator (mem::take) and reset it to default;
otherwise update the accumulator and emit nothing. -/
def stepLine (frame : DataFrame) (line : List Char) : DataFrame × Option DataFrame :=
  if line = bang then (defaultFrame, some frame)
  else (updateFrame frame line, none)

/-- Folding the frame assembler over a line sequence, collecting the
emitted completed records in order. -/
def runLines (frame : DataFrame) : List (List Char) → DataFrame × List DataFrame
  | [] => (frame, [])
  | l :: ls =>
    let s := stepLine frame l
    let r := runLines s.1 ls
    (r.1, s.2.toList ++ r.2)

/-- The record a frame of non-terminator lines produces, starting from
the freshly reset accumulator. -/
def assembleFrame (ls : List (List Char)) : DataFrame :=
  ls.foldl updateFrame defaultFrame

/-- How many of the nine fields differ between two accumulator states. -/
def changedCount (a b : DataFrame) : ℕ :=
  (if a.delivered_1 = b.delivered_1 then 0 else 1) +
  (if a.delivered_2 = b.delivered_2 then 0 else 1) +
  (if a.received_1 = b.received_1 then 0 else 1) +
  (if a.received_2 = b.received_2 then 0 else 1) +
  (if a.current_tariff = b.current_tariff then 0 else 1) +
  (if a.actual_delivered = b.actual_delivered then 0 else 1) +
  (if a.actual_received = b.actual_received then 0 else 1) +
  (if a.max_power = b.max_power then 0 else 1) +
  (if a.switch_mode = b.switch_mode then 0 else 1)

/-- Record (src/main.rs lines 121-126): one stored row as read back by
the loadavg query. -/
structure Record where
  timestamp : ℤ
  delivered_1 : Option ℚ
  delivered_2 : Option ℚ
deriving DecidableEq

/-- The observable outcome of Record::watts_since in f32: a finite
value, a panic of unwrap on a missing field, a signed infinity from
dividing a nonzero numerator by zero elapsed time, or NaN from 0/0. -/
inductive WattsOut where
  | ok (w : ℚ)
  | panicked
  | infinite (pos : Bool)
  | nan
deriving DecidableEq

/-- The body of watts_since after the two rows are ordered: unwrap both
delivered_2 fields (panic when absent), then
(max.delivered_2 - min.delivered_2) * 3600 / (max.timestamp - min.timestamp) * 1000
with IEEE behaviour on zero elapsed time. -/
def wattsAux (mn mx : Record) : WattsOut :=
  match mx.delivered_2, mn.delivered_2 with
  | some dmax, some dmin =>
    if mx.timestamp - mn.timestamp = 0 then
      if (dmax - dmin) * 3600 = 0 then .nan
      else if 0 < (dmax - dmin) * 3600 then .infinite true
      else .infinite false
    else .ok ((dmax - dmin) * 3600 / ((mx.timestamp - mn.timestamp : ℤ) : ℚ) * 1000)
  | _, _ => .panicked

/-- Record::watts_since (src/main.rs lines 129-135).  The stable sort of
the two-element array [self, other] by timestamp swaps the rows exactly
when other is strictly older than self. -/
def Record.watts_since (self other : Record) : WattsOut :=
  wattsAux (if other.timestamp < self.timestamp then other else self)
    (if other.timestamp < self.timestamp then self else other)

/-- The observable outcome of the loadavg handler: the reported
no-records failure, a panic of one of its unwraps, or the three
computed rates in the response order (1, 5, 15 minutes). -/
inductive LoadavgResult where
  | noRecords
  | panicked
  | ok (w1 w5 w15 : WattsOut)
deriving DecidableEq

/-- The rows read in step 1 of loadavg (line 144): all stored rows with
timestamp > now - 15*60 - 10, in stored order. -/
def candidateRows (now : ℤ) (store : List Record) : List Record :=
  store.filter (fun r => now - 15 * 60 - 10 < r.timestamp)

/-- The sub-window candidates for the five-minute rate (line 156). -/
def window5 (now : ℤ) (store : List Record) : List Record :=
  (candidateRows now store).filter (fun r => now - 5 * 60 - 10 < r.timestamp)

/-- The sub-window candidates for the one-minute rate (line 157). -/
def window1 (now : ℤ) (store : List Record) : List Record :=
  (candidateRows now store).filter (fun r => now - 1 * 60 - 10 < r.timestamp)

/-- One fold step of Iterator::min_by_key on the timestamp: keep the
current minimum, replacing it only on a strictly smaller key. -/
def minStep (acc : Option Record) (r : Record) : Option Record :=
  match acc with
  | none => some r
  | some m => if r.timestamp < m.timestamp then some r else some m

/-- Iterator::min_by_key on the timestamp: the first row with minimal
timestamp, or none on an empty iterator. -/
def minByTs (l : List Record) : Option Record :=
  l.foldl minStep none

/-- The end sample the code uses (line 158): res.last(), the last row
of the result set in stored order. -/
def endRow (now : ℤ) (store : List Record) : Option Record :=
  (candidateRows now store).getLast?

/-- One fold step selecting the row with maximal timestamp. -/
def maxStep (acc : Option Record) (r : Record) : Option Record :=
  match acc with
  | none => some r
  | some m => if m.timestamp < r.timestamp then some r else some m

/-- The last row with maximal timestamp. -/
def maxByTs (l : List Record) : Option Record :=
  l.foldl maxStep none

/-- Following the spec words for the end sample, for comparison with
endRow: the row with the latest timestamp among the rows read in
step 1, selected by timestamp value. -/
def specLatestRow (now : ℤ) (store : List Record) : Option Record :=
  maxByTs (candidateRows now store)

/-- The loadavg handler (src/main.rs lines 138-166): read the candidate
rows, fail when empty, pick the three window starts by min_by_key with
unwrap, pick the end row by res.last(), and compute the three rates. -/
def loadavg (now : ℤ) (store : List Record) : LoadavgResult :=
  if candidateRows now store = [] then .noRecords
  else
    match minByTs (candidateRows now store), minByTs (window5 now store),
        minByTs (window1 now store), endRow now store with
    | some m15, some m5, some m1, some e =>
      match e.watts_since m1, e.watts_since m5, e.watts_since m15 with
      | .panicked, _, _ => .panicked
      | _, .panicked, _ => .panicked
      | _, _, .panicked => .panicked
      | w1, w5, w15 => .ok w1 w5 w15
    | _, _, _, _ => .panicked

theorem wattsAux_panicked (mn mx : Record)
    (hx : mx.delivered_2 = none ∨ mn.delivered_2 = none) :
    wattsAux mn mx = WattsOut.panicked := by
  rcases hx with hx | hx
  · unfold wattsAux; rw [hx]
  · unfold wattsAux; rw [hx]; cases hm : mx.delivered_2 <;> rfl

/-- Claim C8 (amended): the pairwise rate computation is symmetric in its
two arguments whenever the two timestamps differ, because min and max are
chosen by timestamp; when the timestamps are equal and both fields are
present with different values, the two argument orders yield
opposite-signed infinities, so full symmetry fails. -/
theorem watts_since_comm (a b : Record) (h : a.timestamp ≠ b.timestamp) :
    Record.watts_since a b = Record.watts_since b a := by
  rcases lt_or_gt_of_ne h with hlt | hlt
  · have h1 : ¬ b.timestamp < a.timestamp := not_lt.mpr hlt.le
    simp [Record.watts_since, h1, hlt]
  · have h1 : ¬ a.timestamp < b.timestamp := not_lt.mpr hlt.le
    simp [Record.watts_since, h1, hlt]

/-- Claim C2 (amended): when either selected row lacks the high-tariff
delivered-energy field, watts_since panics on unwrap of a missing value; no
IncompleteSample error is reported, the failure is an uncontrolled panic. -/
theorem watts_since_panics_on_missing (a b : Record)
    (h : a.delivered_2 = none ∨ b.delivered_2 = none) :
    Record.watts_since a b = WattsOut.panicked := by
  unfold Record.watts_since
  apply wattsAux_panicked
  by_cases hlt : b.timestamp < a.timestamp <;> simp [hlt] <;> try tauto

/-- Claim C7: for rows with both high-tariff energy fields present and
distinct timestamps, the computed rate is the energy delta of the
timestamp-max row minus the timestamp-min row, times 3600, divided by the
elapsed seconds, times 1000. -/
theorem watts_since_formula (a b : Record) (x y : ℚ)
    (hx : a.delivered_2 = some x) (hy : b.delivered_2 = some y)
    (hts : a.timestamp ≠ b.timestamp) :
    Record.watts_since a b =
      WattsOut.ok
        (((if a.timestamp < b.timestamp then y - x else x - y) * 3600) /
          ((max a.timestamp b.timestamp - min a.timestamp b.timestamp : ℤ) : ℚ) * 1000) := by
  rcases lt_or_gt_of_ne hts with h | h
  · have hno : ¬ b.timestamp < a.timestamp := not_lt.mpr h.le
    have hmax : max a.timestamp b.timestamp = b.timestamp := max_eq_right h.le
    have hmin : min a.timestamp b.timestamp = a.timestamp := min_eq_left h.le
    have hdt : ¬ b.timestamp - a.timestamp = 0 := sub_ne_zero.mpr (ne_of_gt h)
    simp [Record.watts_since, wattsAux, hno, hx, hy, hdt, hmax, hmin, h]
  · have hyes : b.timestamp < a.timestamp := h
    have hno : ¬ a.timestamp < b.timestamp := not_lt.mpr h.le
    have hmax : max a.timestamp b.timestamp = a.timestamp := max_eq_left h.le
    have hmin : min a.timestamp b.timestamp = b.timestamp := min_eq_right h.le
    have hdt : ¬ a.timestamp - b.timestamp = 0 := sub_ne_zero.mpr (ne_of_gt h)
    simp [Record.watts_since, wattsAux, hyes, hno, hx, hy, hdt, hmax, hmin]

/-- Claim C3 (amended): there is no division-by-zero guard; when the two
rows carry an identical timestamp and both energy fields are present, the
rate computation is evaluated and produces a non-finite f32 - NaN when the
two energy values coincide and a signed infinity otherwise - which is
propagated, and no AmbiguousWindow failure is reported. -/
theorem watts_since_nonfinite_on_tie (a b : Record) (x y : ℚ)
    (hx : a.delivered_2 = some x) (hy : b.delivered_2 = some y)
    (h : a.timestamp = b.timestamp) :
    Record.watts_since a b =
      if x = y then WattsOut.nan else WattsOut.infinite (decide (x < y)) := by
  have hno : ¬ b.timestamp < a.timestamp := by rw [h]; exact lt_irrefl _
  have hdt : b.timestamp - a.timestamp = 0 := by rw [h]; ring
  rcases lt_trichotomy x y with hxy | hxy | hxy
  · have h0 : ¬ (y - x) * 3600 = 0 :=
      mul_ne_zero (sub_ne_zero.mpr hxy.ne') (by norm_num)
    have hpos : 0 < (y - x) * 3600 := by
      have := sub_pos.mpr hxy
      positivity
    have hd : decide (x < y) = true := decide_eq_true hxy
    simp [Record.watts_since, wattsAux, hno, hx, hy, hdt, h0, hpos, hxy.ne, hd]
  · subst hxy
    simp [Record.watts_since, wattsAux, hno, hx, hy, hdt]
  · have h0 : ¬ (y - x) * 3600 = 0 :=
      mul_ne_zero (sub_ne_zero.mpr hxy.ne) (by norm_num)
    have hneg : (y - x) * 3600 < 0 :=
      mul_neg_of_neg_of_pos (sub_neg.mpr hxy) (by norm_num)
    have hnpos : ¬ 0 < (y - x) * 3600 := not_lt.mpr hneg.le
    have hd : decide (x < y) = false := decide_eq_false (not_lt.mpr hxy.le)
    simp [Record.watts_since, wattsAux, hno, hx, hy, hdt, h0, hnpos, hxy.ne', hd]

theorem minByTs_foldl_some (t : List Record) : ∀ m : Record,
    ∃ r, t.foldl minStep (some m) = some r := by
  induction t with
  | nil => exact fun m => ⟨m, rfl⟩
  | cons c t ih =>
    intro m
    rw [List.foldl_cons]
    show ∃ r, t.foldl minStep (if c.timestamp < m.timestamp then some c else some m) = some r
    by_cases h : c.timestamp < m.timestamp
    · rw [if_pos h]; exact ih c
    · rw [if_neg h]; exact ih m

theorem minByTs_some_of_ne_nil (l : List Record) (h : l ≠ []) :
    ∃ m, minByTs l = some m := by
  cases l with
  | nil => exact absurd rfl h
  | cons a t => exact minByTs_foldl_some t a

theorem getLast?_some_of_ne_nil {α : Type} (l : List α) (h : l ≠ []) :
    ∃ r, l.getLast? = some r := by
  cases l with
  | nil => exact absurd rfl h
  | cons a t => exact ⟨(a :: t).getLast (by simp), List.getLast?_eq_getLast _ _⟩

theorem getLast_ts_max (l : List Record) (hne : l ≠ [])
    (hs : l.Pairwise (fun a b => a.timestamp ≤ b.timestamp)) :
    ∃ r, l.getLast? = some r ∧ ∀ x ∈ l, x.timestamp ≤ r.timestamp := by
  induction l with
  | nil => exact absurd rfl hne
  | cons a t ih =>
    cases t with
    | nil => exact ⟨a, rfl, by simp⟩
    | cons b u =>
      obtain ⟨r, hr, hmax⟩ := ih (by simp) (List.pairwise_cons.mp hs).2
      refine ⟨r, ?_, ?_⟩
      · rw [List.getLast?_cons_cons]
        exact hr
      · intro x hx
        rcases List.mem_cons.mp hx with rfl | hx
        · have hrIn : r ∈ (b :: u).getLast? := Option.mem_def.mpr hr
          have hrmem : r ∈ b :: u := by
            obtain ⟨hne2, heq⟩ := List.mem_getLast?_eq_getLast hrIn
            rw [heq]
            exact List.getLast_mem hne2
          exact (List.pairwise_cons.mp hs).1 r hrmem
        · exact hmax x hx

theorem window1_nil_of_window5_nil (now : ℤ) (store : List Record)
    (h : window5 now store = []) : window1 now store = [] := by
  rw [window1, List.filter_eq_nil_iff]
  intro r hr
  have h5 := List.filter_eq_nil_iff.mp h r hr
  simp only [decide_eq_true_eq] at h5 ⊢
  omega

/-- Claim C4 (amended): when the 15-minute candidate set is empty the
query reports a failure (the no-records 500 response); but when the set is
non-empty and a 5-minute or 1-minute sub-window has no qualifying row, the
query panics on unwrap of min_by_key over an empty iterator instead of
reporting NoData for that window. -/
theorem loadavg_failure_modes (now : ℤ) (store : List Record) :
    (candidateRows now store = [] → loadavg now store = LoadavgResult.noRecords) ∧
    (candidateRows now store ≠ [] →
      window5 now store = [] ∨ window1 now store = [] →
        loadavg now store = LoadavgResult.panicked) := by
  constructor
  · intro h
    simp [loadavg, h]
  · intro hne hw
    unfold loadavg
    rw [if_neg hne]
    rcases hw with h5 | h1
    · have h5' : minByTs (window5 now store) = none := by rw [h5]; rfl
      rw [h5']
      cases hA : minByTs (candidateRows now store) <;>
        cases hB : minByTs (window1 now store) <;>
        cases hC : endRow now store <;> rfl
    · have h1' : minByTs (window1 now store) = none := by rw [h1]; rfl
      rw [h1']
      cases hA : minByTs (candidateRows now store) <;>
        cases hB : minByTs (window5 now store) <;>
        cases hC : endRow now store <;> rfl

/-- Claim C1 (amended): the end sample is res.last(), the last row of the
candidate set in stored order, not the maximum-timestamp row; only when the
candidate rows happen to be sorted nondecreasing by timestamp is the selected
end row guaranteed to carry the maximal timestamp of the set. -/
theorem endRow_latest_of_sorted (now : ℤ) (store : List Record)
    (hne : candidateRows now store ≠ [])
    (hs : (candidateRows now store).Pairwise (fun a b => a.timestamp ≤ b.timestamp)) :
    ∃ r, endRow now store = some r ∧
      ∀ x ∈ candidateRows now store, x.timestamp ≤ r.timestamp :=
  getLast_ts_max _ hne hs

/-- Witness for the amended claim C1 on a concrete sorted store. -/
theorem endRow_latest_of_sorted_witness :
    ∃ r, endRow 1000 [⟨950, none, none⟩, ⟨995, none, none⟩] = some r ∧
      ∀ x ∈ candidateRows 1000 [⟨950, none, none⟩, ⟨995, none, none⟩],
        x.timestamp ≤ r.timestamp :=
  endRow_latest_of_sorted 1000 [⟨950, none, none⟩, ⟨995, none, none⟩]
    (by with_unfolding_all decide) (by with_unfolding_all decide)

/-- Claim C1 counterexample: on a candidate set that is not ordered by
timestamp, res.last() selects the timestamp-50 row while the row with the
latest timestamp in the set has timestamp 100, so the code selects by
insertion order, not by timestamp value. -/
theorem endRow_counterexample :
    (endRow 100 [⟨100, none, none⟩, ⟨50, none, none⟩]).map Record.timestamp = some 50 ∧
    (specLatestRow 100 [⟨100, none, none⟩, ⟨50, none, none⟩]).map Record.timestamp
      = some 100 := by
  constructor <;> with_unfolding_all decide

/-- Witness for the amended claim C4 on concrete stores. -/
theorem loadavg_failure_modes_witness :
    loadavg 0 [] = LoadavgResult.noRecords ∧
    loadavg 1000 [⟨500, none, some 1⟩] = LoadavgResult.panicked :=
  ⟨(loadavg_failure_modes 0 []).1 rfl,
   (loadavg_failure_modes 1000 [⟨500, none, some 1⟩]).2
     (by with_unfolding_all decide) (Or.inl (by with_unfolding_all decide))⟩

/-- Claim C4 counterexample: a store whose only row lies inside the
15-minute window but outside the 5-minute window makes loadavg panic
rather than report a NoData failure for the sub-window. -/
theorem loadavg_subwindow_counterexample :
    loadavg 1000 [⟨400, none, some 2⟩] = LoadavgResult.panicked := by
  with_unfolding_all decide

/-- Claim C2 counterexample: with both candidate rows lacking delivered_2,
the loadavg query panics instead of reporting an IncompleteSample failure
to the caller. -/
theorem loadavg_missing_field_counterexample :
    loadavg 1000 [⟨990, none, none⟩, ⟨995, none, none⟩] = LoadavgResult.panicked := by
  with_unfolding_all decide

/-- Witness for the amended claim C2 on concrete rows. -/
theorem watts_since_panics_on_missing_witness :
    Record.watts_since ⟨1, none, none⟩ ⟨2, none, some 5⟩ = WattsOut.panicked :=
  watts_since_panics_on_missing ⟨1, none, none⟩ ⟨2, none, some 5⟩ (Or.inl rfl)

/-- Claim C3 counterexample: rows with equal timestamps make watts_since
produce a non-finite value (an infinity, or NaN when the energy delta is
zero), so the division by zero elapsed time is evaluated rather than
guarded by an AmbiguousWindow report. -/
theorem watts_since_tie_counterexample :
    Record.watts_since ⟨0, none, some 10⟩ ⟨0, none, some 11⟩ = WattsOut.infinite true ∧
    Record.watts_since ⟨7, none, some 4⟩ ⟨7, none, some 4⟩ = WattsOut.nan := by
  constructor <;> with_unfolding_all decide

/-- Witness for the amended claim C3 on concrete rows. -/
theorem watts_since_nonfinite_on_tie_witness :
    Record.watts_since ⟨5, none, some 3⟩ ⟨5, none, some 7⟩ = WattsOut.infinite true := by
  have h := watts_since_nonfinite_on_tie ⟨5, none, some 3⟩ ⟨5, none, some 7⟩ 3 7 rfl rfl rfl
  rw [h]
  with_unfolding_all decide

/-- Witness for claim C7: rows at timestamps 0 and 3600 with energies 10
and 11 kWh give exactly 1000 watts. -/
theorem watts_since_formula_witness :
    Record.watts_since ⟨3600, none, some 11⟩ ⟨0, none, some 10⟩ = WattsOut.ok 1000 := by
  have h := watts_since_formula ⟨3600, none, some 11⟩ ⟨0, none, some 10⟩ 11 10 rfl rfl
    (by decide)
  rw [h]
  with_unfolding_all decide

/-- Claim C8 counterexample: two rows sharing a timestamp and carrying
different energy values give different results under argument swap (the
produced infinities have opposite signs). -/
theorem watts_since_comm_counterexample :
    Record.watts_since ⟨0, none, some 1⟩ ⟨0, none, some 2⟩ ≠
      Record.watts_since ⟨0, none, some 2⟩ ⟨0, none, some 1⟩ := by
  with_unfolding_all decide

/-- Witness for the amended claim C8 on rows with distinct timestamps. -/
theorem watts_since_comm_witness :
    Record.watts_since ⟨0, none, some 10⟩ ⟨3600, none, some 11⟩ =
      Record.watts_since ⟨3600, none, some 11⟩ ⟨0, none, some 10⟩ :=
  watts_since_comm ⟨0, none, some 10⟩ ⟨3600, none, some 11⟩ (by decide)

theorem dropTag_self (t r : List Char) : dropTag t (t ++ r) = some r := by
  induction t with
  | nil => rfl
  | cons c cs ih => simp [dropTag, ih]

theorem dropTag_eq_append (t s r : List Char) (h : dropTag t s = some r) :
    s = t ++ r := by
  induction t generalizing s with
  | nil => simpa [dropTag] using h
  | cons c cs ih =>
    cases s with
    | nil => simp [dropTag] at h
    | cons x xs =>
      by_cases hx : x = c
      · subst hx
        simp only [dropTag, if_pos rfl] at h
        rw [ih xs h]
        rfl
      · simp [dropTag, hx] at h

theorem takeDigits_stop (s : List Char) (h : stopsNum s) : takeDigits s = ([], s) := by
  cases s with
  | nil => rfl
  | cons c cs => simp [takeDigits, h.1]

theorem takeDigits_append_stuck (s t : List Char) (h : (takeDigits s).2 ≠ []) :
    takeDigits (s ++ t) = ((takeDigits s).1, (takeDigits s).2 ++ t) := by
  induction s with
  | nil => simp [takeDigits] at h
  | cons c cs ih =>
    by_cases hc : c.isDigit
    · simp only [List.cons_append, List.append_eq, takeDigits, hc, if_true] at h ⊢
      rw [ih h]
    · simp [takeDigits, hc]

theorem takeDigits_append_end (s t : List Char) (h : (takeDigits s).2 = [])
    (ht : stopsNum t) : takeDigits (s ++ t) = ((takeDigits s).1, t) := by
  induction s with
  | nil => simpa [takeDigits] using takeDigits_stop t ht
  | cons c cs ih =>
    by_cases hc : c.isDigit
    · simp only [List.cons_append, List.append_eq, takeDigits, hc, if_true] at h ⊢
      rw [ih h]
    · simp [takeDigits, hc] at h

theorem takeDigits_append (s t : List Char) (ht : stopsNum t) :
    takeDigits (s ++ t) = ((takeDigits s).1, (takeDigits s).2 ++ t) := by
  by_cases h : (takeDigits s).2 = []
  · rw [takeDigits_append_end s t h ht, h, List.nil_append]
  · exact takeDigits_append_stuck s t h

theorem parseSign_append (s t : List Char) (h : s ≠ []) :
    parseSign (s ++ t) = ((parseSign s).1, (parseSign s).2 ++ t) := by
  cases s with
  | nil => exact absurd rfl h
  | cons c cs =>
    by_cases h1 : c = '+'
    · simp [parseSign, h1]
    · by_cases h2 : c = '-' <;> simp [parseSign, h1, h2]



theorem mantFrac_append (ip : ℕ) (r t : List Char) (ht : stopsNum t) :
    mantFrac ip (r ++ t) = ((mantFrac ip r).1, (mantFrac ip r).2 ++ t) := by
  cases r with
  | nil =>
    cases t with
    | nil => rfl
    | cons c cs => simp [mantFrac, ht.2.1]
  | cons c cs =>
    by_cases hc : c = '.'
    · subst hc
      simp only [List.cons_append, mantFrac, if_pos rfl]
      rw [takeDigits_append cs t ht]
      simp
    · simp [mantFrac, hc]

theorem mantissa_append (s t : List Char) (m : ℚ) (r : List Char) (ht : stopsNum t)
    (h : mantissa s = some (m, r)) :
    mantissa (s ++ t) = some (m, r ++ t) := by
  cases s with
  | nil => simp [mantissa] at h
  | cons c cs =>
    by_cases hc : c.isDigit
    · simp only [mantissa, hc, if_true, Option.some.injEq] at h
      simp only [List.cons_append, mantissa, hc, if_true, Option.some.injEq]
      have hx : takeDigits (c :: (cs ++ t)) = ((takeDigits (c :: cs)).1,
          (takeDigits (c :: cs)).2 ++ t) := by
        have hta := takeDigits_append (c :: cs) t ht
        simpa using hta
      rw [hx]
      rw [mantFrac_append _ _ t ht, h]
    · by_cases hd : c = '.'
      · subst hd
        simp only [mantissa, Bool.false_eq_true, if_false, hc, eq_self_iff_true,
          if_true] at h
        by_cases hz : (takeDigits cs).1 = []
        · rw [if_pos hz] at h; exact absurd h (by simp)
        · rw [if_neg hz] at h
          simp only [Option.some.injEq, Prod.mk.injEq] at h
          simp only [List.cons_append, mantissa, Bool.false_eq_true, if_false, hc,
            eq_self_iff_true, if_true]
          rw [takeDigits_append cs t ht]
          simp [hz, h.1, ← h.2]
      · simp [mantissa, hc, hd] at h

theorem expPart_append (s t : List Char) (e : ℤ) (ht : stopsNum t)
    (h : expPart s = some (e, [])) :
    expPart (s ++ t) = some (e, t) := by
  cases s with
  | nil =>
    simp only [expPart, Option.some.injEq, Prod.mk.injEq] at h
    obtain ⟨he, -⟩ := h
    subst he
    cases t with
    | nil => rfl
    | cons c cs => simp [expPart, ht.2.2.1, ht.2.2.2]
  | cons c cs =>
    by_cases he : c = 'e' ∨ c = 'E'
    · simp only [expPart, he, if_true] at h
      by_cases hz : (takeDigits (parseSign cs).2).1 = []
      · rw [if_pos hz] at h; exact absurd h (by simp)
      · rw [if_neg hz] at h
        simp only [Option.some.injEq, Prod.mk.injEq] at h
        have hcs : cs ≠ [] := by
          rintro rfl
          exact hz rfl
        simp only [List.cons_append, expPart, he, if_true]
        rw [parseSign_append cs t hcs, takeDigits_append _ t ht]
        simp [hz, h.1, h.2]
    · simp only [expPart, he, if_false, Option.some.injEq, Prod.mk.injEq] at h
      exact absurd h.2 (by simp)

theorem numLit_append (lit t : List Char) (v : ℚ) (ht : stopsNum t)
    (h : numLit lit = some (v, [])) :
    numLit (lit ++ t) = some (v, t) := by
  have hne : lit ≠ [] := by
    rintro rfl
    simp [numLit, parseSign, mantissa] at h
  unfold numLit at h ⊢
  rw [parseSign_append lit t hne]
  cases hm : mantissa (parseSign lit).2 with
  | none => rw [hm] at h; simp at h
  | some mr =>
    obtain ⟨mv, mrest⟩ := mr
    simp only [hm] at h
    cases hex : expPart mrest with
    | none => rw [hex] at h; simp at h
    | some er =>
      obtain ⟨ev, erest⟩ := er
      simp only [hex, Option.some.injEq, Prod.mk.injEq] at h
      obtain ⟨hv, hrest⟩ := h
      subst hrest
      simp only [mantissa_append _ t mv mrest ht hm]
      simp only [expPart_append mrest t ev ht hex]
      simp [hv]

theorem takeUntilRParen_hit (u t : List Char) (hu : ')' ∉ u) :
    takeUntilRParen (u ++ ')' :: t) = some (')' :: t) := by
  induction u with
  | nil => simp [takeUntilRParen]
  | cons c cs ih =>
    have hc : ¬ c = ')' := by
      intro he
      exact hu (he ▸ List.mem_cons_self c cs)
    simp only [List.cons_append, takeUntilRParen, hc, if_false]
    exact ih (fun hm => hu (List.mem_cons_of_mem c hm))

theorem parseFloat_after_tag (i r2 : List Char) :
    parseFloat i (i ++ '(' :: r2) =
      match numLit r2 with
      | none => none
      | some vr =>
        match optUnit vr.2 with
        | [] => none
        | c2 :: _ => if c2 = ')' then some vr.1 else none := by
  unfold parseFloat
  rw [dropTag_self]
  exact rfl

theorem parseFloat_extract_star (i lit u tail : List Char) (v : ℚ)
    (hlit : numLit lit = some (v, [])) (hu : ')' ∉ u) :
    parseFloat i (i ++ '(' :: (lit ++ '*' :: (u ++ ')' :: tail))) = some v := by
  rw [parseFloat_after_tag]
  have hs : stopsNum ('*' :: (u ++ ')' :: tail)) :=
    ⟨by decide, by decide, by decide, by decide⟩
  rw [numLit_append lit _ v hs hlit]
  simp only [optUnit, if_pos rfl, takeUntilRParen_hit u tail hu]
  rfl

theorem parseFloat_extract_plain (i lit tail : List Char) (v : ℚ)
    (hlit : numLit lit = some (v, [])) :
    parseFloat i (i ++ '(' :: (lit ++ ')' :: tail)) = some v := by
  rw [parseFloat_after_tag]
  have hs : stopsNum (')' :: tail) := ⟨by decide, by decide, by decide, by decide⟩
  rw [numLit_append lit _ v hs hlit]
  simp [optUnit]

theorem parseFloat_none_of_not_tag (i line : List Char) (h : ¬ (i <+: line)) :
    parseFloat i line = none := by
  unfold parseFloat
  cases hd : dropTag i line with
  | none => rfl
  | some r1 => exact absurd ⟨r1, (dropTag_eq_append i line r1 hd).symm⟩ h

theorem parseFloat_some_shape (i line : List Char) (v : ℚ)
    (h : parseFloat i line = some v) :
    ∃ r2 r3, line = i ++ '(' :: r2 ∧ numLit r2 = some (v, r3) := by
  unfold parseFloat at h
  cases hd : dropTag i line with
  | none => rw [hd] at h; simp at h
  | some r1 =>
    rw [hd] at h
    cases r1 with
    | nil => simp at h
    | cons c r2 =>
      by_cases hc : c = '('
      · subst hc
        replace h : (match numLit r2 with
            | none => none
            | some vr =>
              match optUnit vr.2 with
              | [] => none
              | c2 :: _ => if c2 = ')' then some vr.1 else none) = some v := h
        cases hn : numLit r2 with
        | none => rw [hn] at h; simp at h
        | some vr =>
          simp only [hn] at h
          refine ⟨r2, vr.2, dropTag_eq_append i line _ hd, ?_⟩
          cases ho : optUnit vr.2 with
          | nil => simp only [ho] at h; exact absurd h (by simp)
          | cons c2 w =>
            simp only [ho] at h
            by_cases hc2 : c2 = ')'
            · rw [if_pos hc2] at h
              simp only [Option.some.injEq] at h
              rw [hn, ← h]
            · rw [if_neg hc2] at h; simp at h
      · simp [hc] at h

theorem parseFloat_tag_of_some (i line : List Char) (v : ℚ)
    (h : parseFloat i line = some v) : (i ++ ['(']) <+: line := by
  obtain ⟨r2, r3, hline, -⟩ := parseFloat_some_shape i line v h
  exact ⟨r2, by rw [hline]; simp⟩

theorem ids_not_prefixes : ∀ i ∈ recognizedIds, ∀ j ∈ recognizedIds,
    i ≠ j → ¬ ((i ++ ['(']) <+: (j ++ ['('])) := by decide

theorem parseFloat_excl (line i j : List Char) (v : ℚ)
    (hi : i ∈ recognizedIds) (hj : j ∈ recognizedIds) (hne : i ≠ j)
    (h : parseFloat i line = some v) : parseFloat j line = none := by
  cases hpj : parseFloat j line with
  | none => rfl
  | some w =>
    have p1 := parseFloat_tag_of_some i line v h
    have p2 := parseFloat_tag_of_some j line w hpj
    rcases List.prefix_or_prefix_of_prefix p1 p2 with hp | hp
    · exact absurd hp (ids_not_prefixes i hi j hj hne)
    · exact absurd hp (ids_not_prefixes j hj i hi hne.symm)

theorem changedCount_le_one (frame : DataFrame) (line : List Char) :
    changedCount frame (updateFrame frame line) ≤ 1 := by
  have hm1 : idDelivered1 ∈ recognizedIds := by decide
  have hm2 : idDelivered2 ∈ recognizedIds := by decide
  have hm3 : idReceived1 ∈ recognizedIds := by decide
  have hm4 : idReceived2 ∈ recognizedIds := by decide
  have hm5 : idCurrentTariff ∈ recognizedIds := by decide
  have hm6 : idActualDelivered ∈ recognizedIds := by decide
  have hm7 : idActualReceived ∈ recognizedIds := by decide
  have hm8 : idMaxPower ∈ recognizedIds := by decide
  have hm9 : idSwitchMode ∈ recognizedIds := by decide
  cases h1 : parseFloat idDelivered1 line with
  | some v =>
    have e2 := parseFloat_excl line idDelivered1 idDelivered2 v hm1 hm2 (by decide) h1
    have e3 := parseFloat_excl line idDelivered1 idReceived1 v hm1 hm3 (by decide) h1
    have e4 := parseFloat_excl line idDelivered1 idReceived2 v hm1 hm4 (by decide) h1
    have e5 := parseFloat_excl line idDelivered1 idCurrentTariff v hm1 hm5 (by decide) h1
    have e6 := parseFloat_excl line idDelivered1 idActualDelivered v hm1 hm6 (by decide) h1
    have e7 := parseFloat_excl line idDelivered1 idActualReceived v hm1 hm7 (by decide) h1
    have e8 := parseFloat_excl line idDelivered1 idMaxPower v hm1 hm8 (by decide) h1
    have e9 := parseFloat_excl line idDelivered1 idSwitchMode v hm1 hm9 (by decide) h1
    simp [changedCount, updateFrame, tryFieldF32, tryFieldI32, h1, e2, e3, e4, e5, e6, e7, e8, e9]
    split <;> simp
  | none =>
  cases h2 : parseFloat idDelivered2 line with
  | some v =>
    have e1 := parseFloat_excl line idDelivered2 idDelivered1 v hm2 hm1 (by decide) h2
    have e3 := parseFloat_excl line idDelivered2 idReceived1 v hm2 hm3 (by decide) h2
    have e4 := parseFloat_excl line idDelivered2 idReceived2 v hm2 hm4 (by decide) h2
    have e5 := parseFloat_excl line idDelivered2 idCurrentTariff v hm2 hm5 (by decide) h2
    have e6 := parseFloat_excl line idDelivered2 idActualDelivered v hm2 hm6 (by decide) h2
    have e7 := parseFloat_excl line idDelivered2 idActualReceived v hm2 hm7 (by decide) h2
    have e8 := parseFloat_excl line idDelivered2 idMaxPower v hm2 hm8 (by decide) h2
    have e9 := parseFloat_excl line idDelivered2 idSwitchMode v hm2 hm9 (by decide) h2
    simp [changedCount, updateFrame, tryFieldF32, tryFieldI32, h2, e1, e3, e4, e5, e6, e7, e8, e9]
    split <;> simp
  | none =>
  cases h3 : parseFloat idReceived1 line with
  | some v =>
    have e1 := parseFloat_excl line idReceived1 idDelivered1 v hm3 hm1 (by decide) h3
    have e2 := parseFloat_excl line idReceived1 idDelivered2 v hm3 hm2 (by decide) h3
    have e4 := parseFloat_excl line idReceived1 idReceived2 v hm3 hm4 (by decide) h3
    have e5 := parseFloat_excl line idReceived1 idCurrentTariff v hm3 hm5 (by decide) h3
    have e6 := parseFloat_excl line idReceived1 idActualDelivered v hm3 hm6 (by decide) h3
    have e7 := parseFloat_excl line idReceived1 idActualReceived v hm3 hm7 (by decide) h3
    have e8 := parseFloat_excl line idReceived1 idMaxPower v hm3 hm8 (by decide) h3
    have e9 := parseFloat_excl line idReceived1 idSwitchMode v hm3 hm9 (by decide) h3
    simp [changedCount, updateFrame, tryFieldF32, tryFieldI32, h3, e1, e2, e4, e5, e6, e7, e8, e9]
    split <;> simp
  | none =>
  cases h4 : parseFloat idReceived2 line with
  | some v =>
    have e1 := parseFloat_excl line idReceived2 idDelivered1 v hm4 hm1 (by decide) h4
    have e2 := parseFloat_excl line idReceived2 idDelivered2 v hm4 hm2 (by decide) h4
    have e3 := parseFloat_excl line idReceived2 idReceived1 v hm4 hm3 (by decide) h4
    have e5 := parseFloat_excl line idReceived2 idCurrentTariff v hm4 hm5 (by decide) h4
    have e6 := parseFloat_excl line idReceived2 idActualDelivered v hm4 hm6 (by decide) h4
    have e7 := parseFloat_excl line idReceived2 idActualReceived v hm4 hm7 (by decide) h4
    have e8 := parseFloat_excl line idReceived2 idMaxPower v hm4 hm8 (by decide) h4
    have e9 := parseFloat_excl line idReceived2 idSwitchMode v hm4 hm9 (by decide) h4
    simp [changedCount, updateFrame, tryFieldF32, tryFieldI32, h4, e1, e2, e3, e5, e6, e7, e8, e9]
    split <;> simp
  | none =>
  cases h5 : parseFloat idCurrentTariff line with
  | some v =>
    have e1 := parseFloat_excl line idCurrentTariff idDelivered1 v hm5 hm1 (by decide) h5
    have e2 := parseFloat_excl line idCurrentTariff idDelivered2 v hm5 hm2 (by decide) h5
    have e3 := parseFloat_excl line idCurrentTariff idReceived1 v hm5 hm3 (by decide) h5
    have e4 := parseFloat_excl line idCurrentTariff idReceived2 v hm5 hm4 (by decide) h5
    have e6 := parseFloat_excl line idCurrentTariff idActualDelivered v hm5 hm6 (by decide) h5
    have e7 := parseFloat_excl line idCurrentTariff idActualReceived v hm5 hm7 (by decide) h5
    have e8 := parseFloat_excl line idCurrentTariff idMaxPower v hm5 hm8 (by decide) h5
    have e9 := parseFloat_excl line idCurrentTariff idSwitchMode v hm5 hm9 (by decide) h5
    simp [changedCount, updateFrame, tryFieldF32, tryFieldI32, h5, e1, e2, e3, e4, e6, e7, e8, e9]
    split <;> simp
  | none =>
  cases h6 : parseFloat idActualDelivered line with
  | some v =>
    have e1 := parseFloat_excl line idActualDelivered idDelivered1 v hm6 hm1 (by decide) h6
    have e2 := parseFloat_excl line idActualDelivered idDelivered2 v hm6 hm2 (by decide) h6
    have e3 := parseFloat_excl line idActualDelivered idReceived1 v hm6 hm3 (by decide) h6
    have e4 := parseFloat_excl line idActualDelivered idReceived2 v hm6 hm4 (by decide) h6
    have e5 := parseFloat_excl line idActualDelivered idCurrentTariff v hm6 hm5 (by decide) h6
    have e7 := parseFloat_excl line idActualDelivered idActualReceived v hm6 hm7 (by decide) h6
    have e8 := parseFloat_excl line idActualDelivered idMaxPower v hm6 hm8 (by decide) h6
    have e9 := parseFloat_excl line idActualDelivered idSwitchMode v hm6 hm9 (by decide) h6
    simp [changedCount, updateFrame, tryFieldF32, tryFieldI32, h6, e1, e2, e3, e4, e5, e7, e8, e9]
    split <;> simp
  | none =>
  cases h7 : parseFloat idActualReceived line with
  | some v =>
    have e1 := parseFloat_excl line idActualReceived idDelivered1 v hm7 hm1 (by decide) h7
    have e2 := parseFloat_excl line idActualReceived idDelivered2 v hm7 hm2 (by decide) h7
    have e3 := parseFloat_excl line idActualReceived idReceived1 v hm7 hm3 (by decide) h7
    have e4 := parseFloat_excl line idActualReceived idReceived2 v hm7 hm4 (by decide) h7
    have e5 := parseFloat_excl line idActualReceived idCurrentTariff v hm7 hm5 (by decide) h7
    have e6 := parseFloat_excl line idActualReceived idActualDelivered v hm7 hm6 (by decide) h7
    have e8 := parseFloat_excl line idActualReceived idMaxPower v hm7 hm8 (by decide) h7
    have e9 := parseFloat_excl line idActualReceived idSwitchMode v hm7 hm9 (by decide) h7
    simp [changedCount, updateFrame, tryFieldF32, tryFieldI32, h7, e1, e2, e3, e4, e5, e6, e8, e9]
    split <;> simp
  | none =>
  cases h8 : parseFloat idMaxPower line with
  | some v =>
    have e1 := parseFloat_excl line idMaxPower idDelivered1 v hm8 hm1 (by decide) h8
    have e2 := parseFloat_excl line idMaxPower idDelivered2 v hm8 hm2 (by decide) h8
    have e3 := parseFloat_excl line idMaxPower idReceived1 v hm8 hm3 (by decide) h8
    have e4 := parseFloat_excl line idMaxPower idReceived2 v hm8 hm4 (by decide) h8
    have e5 := parseFloat_excl line idMaxPower idCurrentTariff v hm8 hm5 (by decide) h8
    have e6 := parseFloat_excl line idMaxPower idActualDelivered v hm8 hm6 (by decide) h8
    have e7 := parseFloat_excl line idMaxPower idActualReceived v hm8 hm7 (by decide) h8
    have e9 := parseFloat_excl line idMaxPower idSwitchMode v hm8 hm9 (by decide) h8
    simp [changedCount, updateFrame, tryFieldF32, tryFieldI32, h8, e1, e2, e3, e4, e5, e6, e7, e9]
    split <;> simp
  | none =>
  cases h9 : parseFloat idSwitchMode line with
  | some v =>
    have e1 := parseFloat_excl line idSwitchMode idDelivered1 v hm9 hm1 (by decide) h9
    have e2 := parseFloat_excl line idSwitchMode idDelivered2 v hm9 hm2 (by decide) h9
    have e3 := parseFloat_excl line idSwitchMode idReceived1 v hm9 hm3 (by decide) h9
    have e4 := parseFloat_excl line idSwitchMode idReceived2 v hm9 hm4 (by decide) h9
    have e5 := parseFloat_excl line idSwitchMode idCurrentTariff v hm9 hm5 (by decide) h9
    have e6 := parseFloat_excl line idSwitchMode idActualDelivered v hm9 hm6 (by decide) h9
    have e7 := parseFloat_excl line idSwitchMode idActualReceived v hm9 hm7 (by decide) h9
    have e8 := parseFloat_excl line idSwitchMode idMaxPower v hm9 hm8 (by decide) h9
    simp [changedCount, updateFrame, tryFieldF32, tryFieldI32, h9, e1, e2, e3, e4, e5, e6, e7, e8]
    split <;> simp
  | none =>
  simp [changedCount, updateFrame, tryFieldF32, tryFieldI32, h1, h2, h3, h4, h5, h6, h7, h8, h9]

theorem truncToZero_bounds (q : ℚ) :
    |((specTruncToZero q : ℤ) : ℚ)| ≤ |q| ∧ |q| < |((specTruncToZero q : ℤ) : ℚ)| + 1 ∧
      0 ≤ q * ((specTruncToZero q : ℤ) : ℚ) := by
  unfold specTruncToZero
  by_cases h : 0 ≤ q
  · rw [if_pos h]
    have h1 : (0 : ℚ) ≤ ((⌊q⌋ : ℤ) : ℚ) := by
      exact_mod_cast Int.floor_nonneg.mpr h
    have h2 : ((⌊q⌋ : ℤ) : ℚ) ≤ q := Int.floor_le q
    have h3 : q < ((⌊q⌋ : ℤ) : ℚ) + 1 := Int.lt_floor_add_one q
    rw [abs_of_nonneg h, abs_of_nonneg h1]
    exact ⟨h2, h3, mul_nonneg h h1⟩
  · rw [if_neg h]
    push_neg at h
    have h1 : ((⌈q⌉ : ℤ) : ℚ) ≤ 0 := by
      have hc : ⌈q⌉ ≤ (0 : ℤ) := Int.ceil_le.mpr (by exact_mod_cast h.le)
      exact_mod_cast hc
    have h2 : q ≤ ((⌈q⌉ : ℤ) : ℚ) := Int.le_ceil q
    have h3 : ((⌈q⌉ : ℤ) : ℚ) < q + 1 := Int.ceil_lt_add_one q
    rw [abs_of_neg h, abs_of_nonpos h1]
    refine ⟨by linarith, by linarith, ?_⟩
    have hm : (0 : ℚ) ≤ (-q) * (-((⌈q⌉ : ℤ) : ℚ)) :=
      mul_nonneg (neg_nonneg.mpr h.le) (neg_nonneg.mpr h1)
    calc (0 : ℚ) ≤ (-q) * (-((⌈q⌉ : ℤ) : ℚ)) := hm
      _ = q * ((⌈q⌉ : ℤ) : ℚ) := by ring

theorem f32AsI32_eq_trunc (q : ℚ) (hlo : -(2147483649 : ℚ) < q)
    (hhi : q < 2147483648) : f32AsI32 q = specTruncToZero q := by
  unfold f32AsI32 specTruncToZero
  by_cases h : 0 ≤ q
  · rw [if_pos h]
    have h1 : ⌊q⌋ < 2147483648 := Int.floor_lt.mpr (by exact_mod_cast hhi)
    have h2 : (0 : ℤ) ≤ ⌊q⌋ := Int.floor_nonneg.mpr h
    rw [min_eq_right (by omega), max_eq_right (by omega)]
  · rw [if_neg h]
    push_neg at h
    have h1 : -2147483649 < ⌈q⌉ := Int.lt_ceil.mpr (by exact_mod_cast hlo)
    have h2 : ⌈q⌉ ≤ 0 := Int.ceil_le.mpr (by exact_mod_cast h.le)
    rw [min_eq_right (by omega), max_eq_right (by omega)]

theorem f32AsI32_sat_high (q : ℚ) (h : (2147483648 : ℚ) ≤ q) :
    f32AsI32 q = 2147483647 := by
  unfold f32AsI32
  have h0 : (0 : ℚ) ≤ q := le_trans (by norm_num) h
  rw [if_pos h0]
  have h1 : (2147483648 : ℤ) ≤ ⌊q⌋ := Int.le_floor.mpr (by exact_mod_cast h)
  rw [min_eq_left (by omega), max_eq_right (by omega)]

theorem f32AsI32_sat_low (q : ℚ) (h : q ≤ -(2147483649 : ℚ)) :
    f32AsI32 q = -2147483648 := by
  unfold f32AsI32
  have h0 : ¬ (0 : ℚ) ≤ q := by linarith
  rw [if_neg h0]
  have h1 : ⌈q⌉ ≤ -2147483649 := Int.ceil_le.mpr (by exact_mod_cast h)
  rw [min_eq_right (by omega), max_eq_left (by omega)]

theorem runLines_no_bang (ls : List (List Char)) (s : DataFrame)
    (h : ∀ l ∈ ls, l ≠ bang) :
    runLines s (ls ++ [bang]) = (defaultFrame, [ls.foldl updateFrame s]) := by
  induction ls generalizing s with
  | nil => simp [runLines, stepLine]
  | cons l ls ih =>
    have hl : l ≠ bang := h l (List.mem_cons_self l ls)
    simp only [List.cons_append, List.append_eq, runLines, stepLine, if_neg hl]
    rw [ih (updateFrame s l) (fun x hx => h x (List.mem_cons_of_mem l hx))]
    simp

theorem foldl_field_f32 (proj : DataFrame → Option ℚ) (i : List Char)
    (hstep : ∀ s l, proj (updateFrame s l) = tryFieldF32 l i (proj s))
    (ls : List (List Char)) (s : DataFrame)
    (h : ∀ l ∈ ls, parseFloat i l = none) :
    proj (ls.foldl updateFrame s) = proj s := by
  induction ls generalizing s with
  | nil => rfl
  | cons l ls ih =>
    rw [List.foldl_cons, ih (updateFrame s l) (fun x hx => h x (List.mem_cons_of_mem l hx)),
      hstep]
    simp [tryFieldF32, h l (List.mem_cons_self l ls)]

theorem foldl_field_i32 (proj : DataFrame → Option ℤ) (i : List Char)
    (hstep : ∀ s l, proj (updateFrame s l) = tryFieldI32 l i (proj s))
    (ls : List (List Char)) (s : DataFrame)
    (h : ∀ l ∈ ls, parseFloat i l = none) :
    proj (ls.foldl updateFrame s) = proj s := by
  induction ls generalizing s with
  | nil => rfl
  | cons l ls ih =>
    rw [List.foldl_cons, ih (updateFrame s l) (fun x hx => h x (List.mem_cons_of_mem l hx)),
      hstep]
    simp [tryFieldI32, h l (List.mem_cons_self l ls)]

/-- Claim C5: for every identifier i and every decimal literal lit fully
recognized by the number grammar with value v, extraction from the line
i(lit*unit...) and from i(lit) both yield v, the unit suffix being
discarded; a line that does not begin with the identifier extracts to
absent, and every successful extraction comes from a line that begins with
the identifier followed by an opening parenthesis and a valid number. -/
theorem extract_spec (i lit u tail line : List Char) (v : ℚ) :
    (numLit lit = some (v, []) → ')' ∉ u →
      parseFloat i (i ++ '(' :: (lit ++ '*' :: (u ++ ')' :: tail))) = some v ∧
      parseFloat i (i ++ '(' :: (lit ++ ')' :: tail)) = some v) ∧
    (¬ (i <+: line) → parseFloat i line = none) ∧
    (∀ w : ℚ, parseFloat i line = some w →
      ∃ r2 r3, line = i ++ '(' :: r2 ∧ numLit r2 = some (w, r3)) :=
  ⟨fun hlit hu => ⟨parseFloat_extract_star i lit u tail v hlit hu,
      parseFloat_extract_plain i lit tail v hlit⟩,
    parseFloat_none_of_not_tag i line,
    fun w hw => parseFloat_some_shape i line w hw⟩

/-- Witness for claim C5 on concrete meter lines. -/
theorem extract_spec_witness :
    parseFloat idDelivered1 ("1-0:1.8.1(123.4*kWh)".data) = some (617 / 5) ∧
    parseFloat idDelivered1 ("1-0:1.8.1(123.4)".data) = some (617 / 5) ∧
    parseFloat idDelivered1 ("0-0:96.14.0(1)".data) = none := by
  have h := extract_spec idDelivered1 ("123.4".data) ("kWh".data) []
    ("0-0:96.14.0(1)".data) (617 / 5)
  have h1 := h.1 (by with_unfolding_all decide) (by decide)
  refine ⟨?_, ?_, ?_⟩
  · have e : ("1-0:1.8.1(123.4*kWh)".data) =
        idDelivered1 ++ '(' :: (("123.4".data) ++ '*' :: (("kWh".data) ++ ')' :: [])) := by
      decide
    rw [e]
    exact h1.1
  · have e : ("1-0:1.8.1(123.4)".data) =
        idDelivered1 ++ '(' :: (("123.4".data) ++ ')' :: []) := by decide
    rw [e]
    exact h1.2
  · exact h.2.1 (by decide)

attribute [local semireducible] Rat.mul Rat.add Rat.sub Rat.inv

/-- Claim C9 counterexample: the line feeding the value 3000000000 (3e9,
exactly representable in f32) into the tariff register stores the
saturated value 2147483647 (the i32 maximum), not the decoded float
truncated toward zero, which would be 3000000000. -/
theorem int_registers_truncate_counterexample :
    parseFloat idCurrentTariff ("0-0:96.14.0(3000000000)".data) = some 3000000000 ∧
    (updateFrame defaultFrame ("0-0:96.14.0(3000000000)".data)).current_tariff
      = some 2147483647 ∧
    specTruncToZero 3000000000 = 3000000000 ∧ (2147483647 : ℤ) ≠ 3000000000 :=
  ⟨by decide, by decide, by decide, by decide⟩

/-- Claim C9 (amended): a line feeding an integer-typed register (current
tariff indicator or switch position) stores the decoded float cast with
the Rust as-conversion, which is truncation toward zero saturated at the
i32 bounds: for decoded values strictly between -2147483649 and
2147483648 the stored integer is exactly the truncation toward zero - an
integer of the same sign whose absolute value is at most that of the
float and within one of it - while values beyond those bounds store the
clamped i32 minimum or maximum instead of the truncation. -/
theorem int_registers_truncate (frame : DataFrame) (line : List Char) :
    (∀ v : ℚ, parseFloat idCurrentTariff line = some v →
      (updateFrame frame line).current_tariff = some (f32AsI32 v)) ∧
    (∀ v : ℚ, parseFloat idSwitchMode line = some v →
      (updateFrame frame line).switch_mode = some (f32AsI32 v)) ∧
    (∀ q : ℚ, -(2147483649 : ℚ) < q → q < 2147483648 →
      f32AsI32 q = specTruncToZero q) ∧
    (∀ q : ℚ, |((specTruncToZero q : ℤ) : ℚ)| ≤ |q| ∧
      |q| < |((specTruncToZero q : ℤ) : ℚ)| + 1 ∧
      0 ≤ q * ((specTruncToZero q : ℤ) : ℚ)) ∧
    (∀ q : ℚ, (2147483648 : ℚ) ≤ q → f32AsI32 q = 2147483647) ∧
    (∀ q : ℚ, q ≤ -(2147483649 : ℚ) → f32AsI32 q = -2147483648) :=
  ⟨fun v hv => by simp [updateFrame, tryFieldI32, hv],
   fun v hv => by simp [updateFrame, tryFieldI32, hv],
   f32AsI32_eq_trunc, truncToZero_bounds, f32AsI32_sat_high, f32AsI32_sat_low⟩

/-- Witness for the amended claim C9: the line setting the tariff register
to -1.7 stores -1 (in-range, so truncation toward zero applies: -1, not
the floor -2). -/
theorem int_registers_truncate_witness :
    (updateFrame defaultFrame ("0-0:96.14.0(-1.7)".data)).current_tariff = some (-1) := by
  have h := (int_registers_truncate defaultFrame ("0-0:96.14.0(-1.7)".data)).1 (-(17 / 10))
    (by decide)
  rw [h]
  decide

/-- Claim C10: a non-terminator line emits nothing and changes at most
one of the nine accumulator fields; the nine identifiers are mutually
exclusive, so at most one extraction succeeds per line, and an identifier
whose extraction fails leaves its field unchanged. -/
theorem line_effect (frame : DataFrame) (line : List Char) (hb : line ≠ bang) :
    (stepLine frame line).2 = none ∧
    changedCount frame (stepLine frame line).1 ≤ 1 ∧
    (∀ i ∈ recognizedIds, ∀ j ∈ recognizedIds, i ≠ j → ∀ v : ℚ,
      parseFloat i line = some v → parseFloat j line = none) ∧
    (parseFloat idDelivered1 line = none →
      (updateFrame frame line).delivered_1 = frame.delivered_1) ∧
    (parseFloat idDelivered2 line = none →
      (updateFrame frame line).delivered_2 = frame.delivered_2) ∧
    (parseFloat idReceived1 line = none →
      (updateFrame frame line).received_1 = frame.received_1) ∧
    (parseFloat idReceived2 line = none →
      (updateFrame frame line).received_2 = frame.received_2) ∧
    (parseFloat idCurrentTariff line = none →
      (updateFrame frame line).current_tariff = frame.current_tariff) ∧
    (parseFloat idActualDelivered line = none →
      (updateFrame frame line).actual_delivered = frame.actual_delivered) ∧
    (parseFloat idActualReceived line = none →
      (updateFrame frame line).actual_received = frame.actual_received) ∧
    (parseFloat idMaxPower line = none →
      (updateFrame frame line).max_power = frame.max_power) ∧
    (parseFloat idSwitchMode line = none →
      (updateFrame frame line).switch_mode = frame.switch_mode) := by
  have hstep : stepLine frame line = (updateFrame frame line, none) := by
    simp [stepLine, hb]
  refine ⟨by rw [hstep], by rw [hstep]; exact changedCount_le_one frame line,
    fun i hi j hj hne v hv => parseFloat_excl line i j v hi hj hne hv,
    ?_, ?_, ?_, ?_, ?_, ?_, ?_, ?_, ?_⟩ <;>
    (intro h; simp [updateFrame, tryFieldF32, tryFieldI32, h])

/-- Witness for claim C10 on a concrete line. -/
theorem line_effect_witness :
    changedCount defaultFrame (stepLine defaultFrame ("1-0:1.8.1(1.5)".data)).1 ≤ 1 :=
  (line_effect defaultFrame ("1-0:1.8.1(1.5)".data) (by decide)).2.1

/-- Claim C6: the terminator line emits the current accumulator as the
completed record and resets the accumulator to all-absent, so the record
of the following frame is assembled from the default frame independently
of the previous frame, and any field not set by a line of that frame is
absent in its record. -/
theorem frame_reset_semantics (prev : DataFrame) (ls : List (List Char))
    (hb : ∀ l ∈ ls, l ≠ bang) :
    stepLine prev bang = (defaultFrame, some prev) ∧
    (runLines prev (bang :: (ls ++ [bang]))).2 = [prev, assembleFrame ls] ∧
    ((∀ l ∈ ls, parseFloat idDelivered1 l = none) →
      (assembleFrame ls).delivered_1 = none) ∧
    ((∀ l ∈ ls, parseFloat idDelivered2 l = none) →
      (assembleFrame ls).delivered_2 = none) ∧
    ((∀ l ∈ ls, parseFloat idReceived1 l = none) →
      (assembleFrame ls).received_1 = none) ∧
    ((∀ l ∈ ls, parseFloat idReceived2 l = none) →
      (assembleFrame ls).received_2 = none) ∧
    ((∀ l ∈ ls, parseFloat idCurrentTariff l = none) →
      (assembleFrame ls).current_tariff = none) ∧
    ((∀ l ∈ ls, parseFloat idActualDelivered l = none) →
      (assembleFrame ls).actual_delivered = none) ∧
    ((∀ l ∈ ls, parseFloat idActualReceived l = none) →
      (assembleFrame ls).actual_received = none) ∧
    ((∀ l ∈ ls, parseFloat idMaxPower l = none) →
      (assembleFrame ls).max_power = none) ∧
    ((∀ l ∈ ls, parseFloat idSwitchMode l = none) →
      (assembleFrame ls).switch_mode = none) := by
  refine ⟨by simp [stepLine], ?_,
    fun h => foldl_field_f32 (fun f => f.delivered_1) idDelivered1
      (fun s l => rfl) ls defaultFrame h,
    fun h => foldl_field_f32 (fun f => f.delivered_2) idDelivered2
      (fun s l => rfl) ls defaultFrame h,
    fun h => foldl_field_f32 (fun f => f.received_1) idReceived1
      (fun s l => rfl) ls defaultFrame h,
    fun h => foldl_field_f32 (fun f => f.received_2) idReceived2
      (fun s l => rfl) ls defaultFrame h,
    fun h => foldl_field_i32 (fun f => f.current_tariff) idCurrentTariff
      (fun s l => rfl) ls defaultFrame h,
    fun h => foldl_field_f32 (fun f => f.actual_delivered) idActualDelivered
      (fun s l => rfl) ls defaultFrame h,
    fun h => foldl_field_f32 (fun f => f.actual_received) idActualReceived
      (fun s l => rfl) ls defaultFrame h,
    fun h => foldl_field_f32 (fun f => f.max_power) idMaxPower
      (fun s l => rfl) ls defaultFrame h,
    fun h => foldl_field_i32 (fun f => f.switch_mode) idSwitchMode
      (fun s l => rfl) ls defaultFrame h⟩
  simp only [runLines, stepLine, eq_self_iff_true, if_true]
  rw [runLines_no_bang ls defaultFrame hb]
  simp [assembleFrame]

/-- Witness for claim C6: a field set before a terminator is absent in
the next emitted record unless a line of the next frame sets it. -/
theorem frame_reset_semantics_witness :
    (runLines ⟨some 5, none, none, none, none, none, none, none, none⟩
        (bang :: (["1-0:1.8.2(3)".data] ++ [bang]))).2 =
      [⟨some 5, none, none, none, none, none, none, none, none⟩,
        assembleFrame ["1-0:1.8.2(3)".data]] :=
  (frame_reset_semantics ⟨some 5, none, none, none, none, none, none, none, none⟩
    ["1-0:1.8.2(3)".data] (by decide)).2.1
